import Mathlib

/-!
Shallow embedding of the command-dispatch layer of `rxvc` (src/rxvc/cli.py),
a command-line controller for a Yamaha RX-V receiver.

Each click command handler is embedded as a pure Lean function.  The device
(the `rxv` client object `avr`) is external: reads are supplied as parameters
(the current volume, the basic status, play/menu status snapshots) and each
fallible setter call is supplied with its outcome, `none` for success or
`some e` for a raised `ResponseException` whose `str` is `e`.  A handler
returns the ordered list of device calls it issued, the ordered lines it
rendered, and the uncaught exception it terminated with, if any.

Python floats are modelled as rationals: every literal the code manipulates
(`0.5` steps, parsed volume levels) is exactly representable, so ℚ is a
faithful carrier for the arithmetic in `_adjust_volume`, `volume` and `fade`.
Python `int()` truncates toward zero, `str.lower()` is modelled per character
(the tokens compared are ASCII), and `x in y` on strings is substring search.

Click semantics used by the embedding: an option/argument that the user did
not supply is passed to the handler as `None` unless the click declaration
carries a `default` (so `points` arrives as `2`, while `fade`'s `delay`
arrives as `None`: the Python-level default `delay=0.5` in the `def` line is
shadowed because click always passes the parameter explicitly).  `if x:` on
an optional float is false for `None` and for `0.0`; on an optional string it
is false for `None` and for the empty string.
-/

namespace Rxvc

/-- Python `int()` on a rational: truncation toward zero. -/
def pyInt (q : ℚ) : ℤ := if q < 0 then ⌈q⌉ else ⌊q⌋

/-- Python `str.lower()` restricted to the ASCII range, applied per character. -/
def pyLower (s : String) : String := String.mk (s.data.map Char.toLower)

/-- Python `needle in hay` on lists of characters: substring occurrence. -/
def listContainsSub (needle : List Char) : List Char → Bool
  | [] => needle.isEmpty
  | c :: t => needle.isPrefixOf (c :: t) || listContainsSub needle t

/-- Python `needle in hay` on strings: substring occurrence. -/
def strContainsSub (needle hay : String) : Bool :=
  listContainsSub needle.data hay.data

/-- Python truthiness of an optional float: `None` and `0.0` are falsy. -/
def pyTruthyFloat : Option ℚ → Bool
  | none => false
  | some v => v != 0

/-- Python truthiness of an optional string: `None` and `""` are falsy. -/
def pyTruthyStr : Option String → Bool
  | none => false
  | some s => s != ""

/-- One call issued to the device control client (`avr`), reads included. -/
inductive DeviceCall where
  | readBasicStatus
  | readVolume
  | readPower
  | setVolume (v : ℚ)
  | volumeFade (target : ℤ) (delay : ℚ)
  | setMute (b : Bool)
  | setPower (b : Bool)
  | enableOutput (outName : String) (state : Bool)
  | readPlaybackSupported
  | readPlayStatus
  | play
  | stop
  | pause
  | next
  | previous
  | readMenuStatus
  | menuUp
  | menuDown
  | menuLeft
  | menuRight
  | menuSel
  | menuReturn
  deriving DecidableEq, Repr

/-- Whether a device call mutates device state (anything but a status read). -/
def DeviceCall.isWrite : DeviceCall → Bool
  | .readBasicStatus => false
  | .readVolume => false
  | .readPower => false
  | .readPlaybackSupported => false
  | .readPlayStatus => false
  | .readMenuStatus => false
  | _ => true

/-- One rendered line.  `text` is a plain `print`/`click.echo`; `err` is a
`click.style(..., fg=red)` message; `num` is an echo of a bare float value;
the remaining constructors stand for the format-string renderings whose holes
hold non-string values (their exact float/bool formatting is presentation). -/
inductive OutLine where
  | text (s : String)
  | err (s : String)
  | num (q : ℚ)
  | fadeMsg (vol : ℚ) (delay : Option ℚ)
  | mutedRender (muted : Bool)
  | playRender (playing : Bool) (artist album song station : String)
  | menuHeader (ready : Bool) (layer : ℤ) (menuName : String) (maxLine : ℤ)
  deriving DecidableEq, Repr

/-- Result of one command invocation: device calls in order, rendered lines in
order, and the uncaught exception (as text) if the handler raised. -/
structure CmdResult where
  calls : List DeviceCall
  output : List OutLine
  raised : Option String
  deriving DecidableEq, Repr

/-- The absolute volumes a command sent to the device volume setter. -/
def sentVolumes (r : CmdResult) : List ℚ :=
  r.calls.filterMap fun c =>
    match c with
    | .setVolume v => some v
    | _ => none

/-- The fade requests a command sent to the device. -/
def sentFades (r : CmdResult) : List (ℤ × ℚ) :=
  r.calls.filterMap fun c =>
    match c with
    | .volumeFade t d => some (t, d)
    | _ => none

/-- Fixed message of the `volume` command local rejection (cli.py 153-154). -/
def volRejectMsg : String :=
  "Volume must be specified as a negative float in steps of 0.5."

/-- Fixed step-alignment message of the error classifier (cli.py 149, 343). -/
def volStepMsg : String := "Volume must be specified in -0.5 increments."

/-- Fixed message of the `fade` command local rejection (cli.py 347-349). -/
def fadeRejectMsg : String :=
  "Volume must be specified as a negative float in steps of 0.5. Optionally, a delay can be specified in seconds."

/-- Embeds the `volume` command (cli.py 133-156).  `avrVol` is the device
volume a read of `avr.volume` returns before any set; `setRes` is the outcome
of `avr.volume = vol`; `vol` is the `--vol` option.  After a successful
set the handler echoes a fresh read of `avr.volume`, which returns the value
just set. -/
def volumeCmd (avrVol : ℚ) (setRes : Option String) (vol : Option ℚ) : CmdResult :=
  if pyTruthyFloat vol then
    let v := vol.getD 0
    if v < 0 then
      match setRes with
      | none =>
          { calls := [.setVolume v, .readVolume], output := [.num v], raised := none }
      | some e =>
          if strContainsSub "Volume" e then
            { calls := [.setVolume v], output := [.err volStepMsg], raised := none }
          else
            { calls := [.setVolume v], output := [], raised := none }
    else
      { calls := [], output := [.text volRejectMsg], raised := none }
  else
    { calls := [.readVolume], output := [.num avrVol], raised := none }

/-- Embeds the `mute` command (cli.py 160-183).  `basicMuted` is the `mute`
field of the `basic_status` snapshot fetched unconditionally on entry;
`setRes` is the outcome of `avr.mute = ...`; `muteArg` is the argument. -/
def muteCmd (basicMuted : Bool) (setRes : Option String) (muteArg : Option String) :
    CmdResult :=
  if pyTruthyStr muteArg then
    let m := pyLower (muteArg.getD "")
    match setRes with
    | none =>
        { calls := [.readBasicStatus, .setMute (m == "on")],
          output := [.text m], raised := none }
    | some e =>
        if strContainsSub "Mute" e then
          { calls := [.readBasicStatus, .setMute (m == "on")],
            output := [.err "Mute command failed."], raised := none }
        else
          { calls := [.readBasicStatus, .setMute (m == "on")],
            output := [], raised := none }
  else
    { calls := [.readBasicStatus], output := [.mutedRender basicMuted], raised := none }

/-- Embeds the `power` command (cli.py 186-219).  `avrOn` is what a read of
`avr.on` returns; `setRes` is the outcome of `avr.on = ...` (the bare
`except:` catches any exception); `state` is the argument. -/
def powerCmd (avrOn : Bool) (setRes : Option String) (state : Option String) : CmdResult :=
  if pyTruthyStr state then
    let s := pyLower (state.getD "")
    if s == "on" || s == "off" then
      match setRes with
      | none =>
          { calls := [.setPower (s == "on")],
            output := [.text ("Turned the receiver " ++ s)], raised := none }
      | some _ =>
          { calls := [.setPower (s == "on")],
            output := [.err "Something went wrong. Make sure the Network Standby setting of your receiver is on."],
            raised := none }
    else
      { calls := [], output := [.err "State must be on or off"], raised := none }
  else
    { calls := [.readPower],
      output := [.text ("Power state is " ++ (if avrOn then "on" else "off"))],
      raised := none }

/-- Fixed message of the `output` command for an unknown name (cli.py 107-108;
the source concatenates two adjacent string literals, yielding `toget`). -/
def outputNotValidMsg : String :=
  "That\x27s not a valid output. Run \x60rxvc outputs\x27 toget a list of them."

/-- Embeds the `output` command (cli.py 91-112).  `outs` is the key set of the
`avr.outputs` mapping; `enableRes` is the outcome of `avr.enable_output`
(which is not wrapped in a `try`, so a rejection propagates); `outName` and
`state` are the two required arguments. -/
def outputCmd (outs : List String) (enableRes : Option String) (outName state : String) :
    CmdResult :=
  if state == "on" || state == "off" then
    let outstate := state == "on"
    if outName ∈ outs then
      { calls := [.enableOutput outName outstate],
        output := [.text ("Setting receiver output " ++ outName ++ " to " ++ state)],
        raised := enableRes }
    else
      { calls := [], output := [.text outputNotValidMsg], raised := none }
  else
    { calls := [], output := [.err "State must be on or off"], raised := none }

/-- Embeds the `fade` command (cli.py 326-349).  `fadeRes` is the outcome of
`avr.volume_fade`; `vol` is the `--vol` option; `delay` is the optional
positional argument, `none` when absent (click passes `None`, shadowing the
`delay=0.5` default of the `def` line).  With `delay` absent the handler
prints the fade message with `None` and then raises `TypeError` at
`float(delay)` before any device call; on a `ResponseException` it prints the
exception text and then applies the `"Volume"` keyword classifier. -/
def fadeCmd (fadeRes : Option String) (vol : Option ℚ) (delay : Option ℚ) : CmdResult :=
  if pyTruthyFloat vol && decide (vol.getD 0 < 0) then
    let v := vol.getD 0
    match delay with
    | none =>
        { calls := [], output := [.fadeMsg v none], raised := some "TypeError" }
    | some d =>
        match fadeRes with
        | none =>
            { calls := [.volumeFade (pyInt v) d],
              output := [.fadeMsg v (some d)], raised := none }
        | some e =>
            if strContainsSub "Volume" e then
              { calls := [.volumeFade (pyInt v) d],
                output := [.fadeMsg v (some d), .text e, .err volStepMsg],
                raised := none }
            else
              { calls := [.volumeFade (pyInt v) d],
                output := [.fadeMsg v (some d), .text e], raised := none }
  else
    { calls := [], output := [.text fadeRejectMsg], raised := none }

/-- The two operations `_adjust_volume` is called with (`operator.add` from
`up`, `operator.sub` from `down`). -/
inductive VolOp where
  | add
  | sub
  deriving DecidableEq, Repr

/-- Applies `operator.add` / `operator.sub`. -/
def VolOp.apply : VolOp → ℚ → ℚ → ℚ
  | .add, a, b => a + b
  | .sub, a, b => a - b

/-- Embeds `_adjust_volume` (cli.py 354-374).  `avrVol` is the current volume
read from `avr.volume`; `setRes` is the outcome of `avr.volume = new_vol`. -/
def adjust_volume (avrVol : ℚ) (setRes : Option String) (points : ℤ) (operation : VolOp) :
    CmdResult :=
  let new_vol := operation.apply avrVol ((points : ℚ) * (1 / 2))
  match setRes with
  | none =>
      { calls := [.readVolume, .setVolume new_vol], output := [.num new_vol], raised := none }
  | some _ =>
      { calls := [.readVolume, .setVolume new_vol],
        output := [.err "New volume must be out of range."], raised := none }

/-- Embeds the `up` command (cli.py 377-392): `points` is the optional
argument, to which click applies the declared `default=2` when absent. -/
def upCmd (avrVol : ℚ) (setRes : Option String) (points : Option ℤ) : CmdResult :=
  adjust_volume avrVol setRes (points.getD 2) .add

/-- Embeds the `down` command (cli.py 395-410): `points` is the optional
argument, to which click applies the declared `default=2` when absent. -/
def downCmd (avrVol : ℚ) (setRes : Option String) (points : Option ℤ) : CmdResult :=
  adjust_volume avrVol setRes (points.getD 2) .sub

/-- The `play_status()` snapshot (fields used by the `playback` command). -/
structure PlayStatus where
  playing : Bool
  artist : String
  album : String
  song : String
  station : String
  deriving DecidableEq, Repr

/-- Fixed unavailability message of the playback gate (cli.py 421). -/
def playbackUnavailMsg : String :=
  "Playback controls are not available for the active input."

/-- Fixed message of the `playback` command for an invalid token (cli.py
434-435; the source concatenates two adjacent literals, yielding
`commandsinclude`). -/
def playbackNotValidMsg : String :=
  "That\x27s not a valid playback control command. Valid commandsinclude \x27play\x27, \x27stop\x27, \x27pause\x27, \x27next\x27 and \x27previous\x27."

/-- Embeds the `playback` command (cli.py 413-447).  `supported` is what
`avr.is_playback_supported()` returns; `ps` is the `play_status()` snapshot
read in the no-argument branch; `command` is the optional argument. -/
def playbackCmd (supported : Bool) (ps : PlayStatus) (command : Option String) : CmdResult :=
  if !supported then
    { calls := [.readPlaybackSupported], output := [.text playbackUnavailMsg], raised := none }
  else if pyTruthyStr command then
    let c := command.getD ""
    if c ∈ (["play", "stop", "pause", "next", "previous"] : List String) then
      { calls := [.readPlaybackSupported] ++
          (if c == "play" then [DeviceCall.play] else []) ++
          (if c == "stop" then [DeviceCall.stop] else []) ++
          (if c == "pause" then [DeviceCall.pause] else []) ++
          (if c == "next" then [DeviceCall.next] else []) ++
          (if c == "previous" then [DeviceCall.previous] else []),
        output := [.text ("Sending command " ++ c ++ " to receiver")], raised := none }
    else
      { calls := [.readPlaybackSupported], output := [.text playbackNotValidMsg],
        raised := none }
  else
    { calls := [.readPlaybackSupported, .readPlayStatus],
      output := [.playRender ps.playing ps.artist ps.album ps.song ps.station],
      raised := none }

/-- The `menu_status()` snapshot.  `current_list` carries the entries mapping
as a list of (position key, display text) pairs in fetch order. -/
structure MenuStatus where
  ready : Bool
  layer : ℤ
  menuName : String
  current_line : ℤ
  max_line : ℤ
  current_list : List (String × String)
  deriving DecidableEq, Repr

/-- Python tuple order on (key, value) pairs of strings, as compared by
`sorted(d.items())`. -/
def pairLe (a b : String × String) : Prop :=
  a.1 < b.1 ∨ (a.1 = b.1 ∧ a.2 ≤ b.2)

instance : DecidableRel pairLe := fun a b => by
  unfold pairLe
  infer_instance

instance : IsTrans (String × String) pairLe := by
  constructor
  intro a b c hab hbc
  rcases hab with h1 | ⟨h1, h2⟩ <;> rcases hbc with h3 | ⟨h3, h4⟩
  · exact Or.inl (lt_trans h1 h3)
  · exact Or.inl (h3 ▸ h1)
  · exact Or.inl (h1 ▸ h3)
  · exact Or.inr ⟨h1.trans h3, le_trans h2 h4⟩

instance : IsTotal (String × String) pairLe := by
  constructor
  intro a b
  rcases lt_trichotomy a.1 b.1 with h | h | h
  · exact Or.inl (Or.inl h)
  · rcases le_total a.2 b.2 with h2 | h2
    · exact Or.inl (Or.inr ⟨h, h2⟩)
    · exact Or.inr (Or.inr ⟨h.symm, h2⟩)
  · exact Or.inr (Or.inl h)

/-- Python `sorted` on the items of the entries mapping. -/
def sortItems (l : List (String × String)) : List (String × String) :=
  List.insertionSort pairLe l

/-- Fixed unavailability message of the menu gate (cli.py 457). -/
def menuUnavailMsg : String := "Menu is currently not available."

/-- Fixed message of the `menu` command for an invalid token (cli.py 471-472). -/
def menuNotValidMsg : String :=
  "That\x27s not a valid menu control command. Valid commands include \x27up\x27, \x27down\x27, \x27left\x27, \x27right\x27, \x27select\x27 and \x27return\x27."

/-- The rendering of a `menu_status()` snapshot (cli.py 475-488): the header
block followed by one line per entry, sorted. -/
def menuRender (ms : MenuStatus) : List OutLine :=
  OutLine.menuHeader ms.ready ms.layer ms.menuName ms.max_line ::
    (sortItems ms.current_list).map fun it => OutLine.text ("*  " ++ it.2)

/-- The navigation calls issued for a recognized menu token (cli.py 464-469,
five independent `if`s in the source; tokens are distinct so at most one
fires). -/
def menuNavCalls (c : String) : List DeviceCall :=
  (if c == "up" then [DeviceCall.menuUp] else []) ++
    (if c == "down" then [DeviceCall.menuDown] else []) ++
    (if c == "left" then [DeviceCall.menuLeft] else []) ++
    (if c == "right" then [DeviceCall.menuRight] else []) ++
    (if c == "select" then [DeviceCall.menuSel] else []) ++
    (if c == "return" then [DeviceCall.menuReturn] else [])

/-- Embeds the `menu` command (cli.py 449-488).  `ms0` is the `menu_status()`
snapshot the gate fetches on entry; `ms1` is the snapshot the second, fresh
fetch returns at the final render; `command` is the optional argument. -/
def menuCmd (ms0 ms1 : MenuStatus) (command : Option String) : CmdResult :=
  if !ms0.ready then
    { calls := [.readMenuStatus], output := [.text menuUnavailMsg], raised := none }
  else if pyTruthyStr command then
    let c := command.getD ""
    if c ∈ (["up", "down", "left", "right", "select", "return"] : List String) then
      { calls := [.readMenuStatus] ++ menuNavCalls c ++ [.readMenuStatus],
        output := .text ("Sending menu command " ++ c ++ " to receiver") :: menuRender ms1,
        raised := none }
    else
      { calls := [.readMenuStatus], output := [.text menuNotValidMsg], raised := none }
  else
    { calls := [.readMenuStatus, .readMenuStatus], output := menuRender ms1, raised := none }

/-! ## Claims -/

/-- Claim C1 fails at `v_req = 0`: `if vol:` is false for the float `0.0`, so
a requested volume of `0` falls into the no-argument read branch and the
command prints the current device volume instead of the fixed instructional
message (the setter is still never called). -/
theorem C1_counterexample :
    (volumeCmd (-20) none (some 0)).output = [OutLine.num (-20)] ∧
    (volumeCmd (-20) none (some 0)).calls = [DeviceCall.readVolume] ∧
    OutLine.num (-20) ≠ OutLine.text volRejectMsg := by
  refine ⟨?_, ?_, ?_⟩ <;> decide

/-- Claim C1 (amended): for a requested volume `v`, the device volume setter
is never called when `v ≥ 0`; a strictly positive `v` renders the fixed
instructional message, while `v = 0` falls into the falsy read branch and
prints the current volume; a strictly negative `v` is sent verbatim to the
setter. -/
theorem C1_volume_absolute (avrVol : ℚ) (setRes : Option String) (v : ℚ) :
    (0 < v →
      (volumeCmd avrVol setRes (some v)).calls = [] ∧
      (volumeCmd avrVol setRes (some v)).output = [OutLine.text volRejectMsg]) ∧
    (v = 0 →
      (volumeCmd avrVol setRes (some v)).calls = [DeviceCall.readVolume] ∧
      (volumeCmd avrVol setRes (some v)).output = [OutLine.num avrVol]) ∧
    (v < 0 → sentVolumes (volumeCmd avrVol setRes (some v)) = [v]) := by
  refine ⟨fun h => ?_, fun h => ?_, fun h => ?_⟩
  · have h1 : pyTruthyFloat (some v) = true := by
      simp [pyTruthyFloat]
      exact ne_of_gt h
    have h2 : ¬v < 0 := not_lt.mpr (le_of_lt h)
    simp [volumeCmd, h1, h2]
  · subst h
    simp [volumeCmd, pyTruthyFloat]
  · have h1 : pyTruthyFloat (some v) = true := by
      simp [pyTruthyFloat]
      exact ne_of_lt h
    rcases setRes with _ | e
    · simp [volumeCmd, h1, h, sentVolumes]
    · by_cases hc : strContainsSub "Volume" e <;>
        simp [volumeCmd, h1, h, hc, sentVolumes]

/-- Witness for `C1_volume_absolute` at `v = -3`. -/
theorem C1_volume_absolute_witness :
    sentVolumes (volumeCmd (-20) none (some (-3))) = [-3] :=
  (C1_volume_absolute (-20) none (-3)).2.2 (by norm_num)

/-- Claim C2: for every current volume `v`, points `n` and setter outcome,
`up` sends the absolute volume `v + n·0.5` and `down` sends `v - n·0.5`; on
success the new value is echoed; with no argument click applies the declared
default `n = 2`, so `up` at `-20.0` sends `-19.0` and prints `-19.0`. -/
theorem C2_relative_volume (v : ℚ) (n : ℤ) (res : Option String) :
    sentVolumes (upCmd v res (some n)) = [v + (n : ℚ) * (1 / 2)] ∧
    sentVolumes (downCmd v res (some n)) = [v - (n : ℚ) * (1 / 2)] ∧
    (upCmd v none (some n)).output = [OutLine.num (v + (n : ℚ) * (1 / 2))] ∧
    (downCmd v none (some n)).output = [OutLine.num (v - (n : ℚ) * (1 / 2))] ∧
    sentVolumes (upCmd v res none) = [v + 1] ∧
    (upCmd v none none).output = [OutLine.num (v + 1)] ∧
    sentVolumes (upCmd (-20) res none) = [-19] ∧
    (upCmd (-20) none none).output = [OutLine.num (-19)] := by
  have h2 : ((2 : ℤ) : ℚ) * (1 / 2) = 1 := by norm_num
  have h20 : (-20 : ℚ) + ((2 : ℤ) : ℚ) * (1 / 2) = -19 := by norm_num
  cases res <;> simp [upCmd, downCmd, adjust_volume, VolOp.apply, sentVolumes, h2, h20] <;>
    norm_num

/-- Claim C3, at its failing input: `fade --vol -20` with no delay argument.
Click passes `delay = None` (the `delay=0.5` default of the `def` line is
shadowed), so after printing the fade message the handler raises `TypeError`
at `float(delay)` and never calls `volume_fade` — the claimed default delay
of `0.5` is never applied.  The remaining conjuncts record the behaviour the
claim correctly describes: with a delay supplied, `volume_fade` is invoked
once with the integer truncation of the target, and a non-negative target is
never sent. -/
theorem C3_fade_default_delay_bug :
    (fadeCmd none (some (-20)) none).raised = some "TypeError" ∧
    (fadeCmd none (some (-20)) none).calls = [] ∧
    (fadeCmd none (some (-20)) none).output = [OutLine.fadeMsg (-20) none] ∧
    (fadeCmd none (some (-20)) (some (1 / 2))).calls
      = [DeviceCall.volumeFade (-20) (1 / 2)] ∧
    (fadeCmd none (some ((-41 : ℚ) / 2)) (some 1)).calls
      = [DeviceCall.volumeFade (-20) 1] ∧
    (fadeCmd none (some 0) (some 1)).calls = [] ∧
    (fadeCmd none (some 5) (some 1)).calls = [] := by
  have htr : pyInt ((-41 : ℚ) / 2) = -20 := by
    rw [pyInt, if_pos (by norm_num), Int.ceil_eq_iff]
    norm_num
  have h20 : pyInt (-20 : ℚ) = -20 := by
    rw [pyInt, if_pos (by norm_num), Int.ceil_eq_iff]
    norm_num
  refine ⟨?_, ?_, ?_, ?_, ?_, ?_, ?_⟩ <;>
    simp [fadeCmd, pyTruthyFloat, htr, h20] <;> norm_num

/-- Claim C4 fails: the `mute` handler performs no on/off validation at all.
At the token `banana` — not a valid on/off token — the device mute setter is
still invoked (with `False`, since `banana != on`), the token itself is
echoed, and no fixed invalid-value message is rendered. -/
theorem C4_counterexample :
    (muteCmd false none (some "banana")).calls
      = [DeviceCall.readBasicStatus, DeviceCall.setMute false] ∧
    (muteCmd false none (some "banana")).output = [OutLine.text "banana"] := by
  constructor <;> decide

/-- Claim C4 (amended): `mute` validates nothing: every non-empty token is
lowercased and the device mute setter is invoked with the comparison
`token == on`, so any token other than `on` (after lowercasing) mutes to
`False` and the lowercased token is echoed; no invalid-value message exists
on this path.  In particular `mute off` invokes the setter with `False` and
prints `off`. -/
theorem C4_mute_no_validation (b : Bool) (s : String) (hs : s ≠ "") :
    ((muteCmd b none (some s)).calls
      = [DeviceCall.readBasicStatus, DeviceCall.setMute (pyLower s == "on")] ∧
     (muteCmd b none (some s)).output = [OutLine.text (pyLower s)]) ∧
    ((muteCmd b none (some "off")).calls
      = [DeviceCall.readBasicStatus, DeviceCall.setMute false] ∧
     (muteCmd b none (some "off")).output = [OutLine.text "off"]) := by
  have ht : pyTruthyStr (some s) = true := by simp [pyTruthyStr, hs]
  have ht2 : pyTruthyStr (some "off") = true := by decide
  refine ⟨⟨?_, ?_⟩, ?_, ?_⟩ <;> simp [muteCmd, ht, ht2] <;> decide

/-- Witness for `C4_mute_no_validation` at the token `banana`. -/
theorem C4_mute_no_validation_witness :
    (muteCmd false none (some "banana")).output = [OutLine.text (pyLower "banana")] :=
  ((C4_mute_no_validation false "banana" (by decide)).1).2

/-- Claim C5 fails for the fade path: the `fade` handler prints the raised
exception's text before the keyword check, so a rejection whose text lacks
the substring `Volume` (here `boom`) is not silently absorbed — its raw text
is rendered. -/
theorem C5_counterexample :
    (fadeCmd (some "boom") (some (-20)) (some 1)).output
      = [OutLine.fadeMsg (-20) (some 1), OutLine.text "boom"] ∧
    strContainsSub "Volume" "boom" = false := by
  have hk : strContainsSub "Volume" "boom" = false := by decide
  refine ⟨?_, hk⟩
  simp [fadeCmd, pyTruthyFloat, hk]

/-- Claim C5 (amended): for a device rejection with text `e` raised during an
absolute volume set or a fade (target `v < 0`, delay supplied), neither
invocation terminates abnormally, and the fixed step-alignment message is
rendered exactly when `e` contains the substring `Volume`; when it does not,
the `volume` call site renders nothing, while the `fade` call site still
prints the rejection's raw text (which it prints unconditionally, before the
keyword check). -/
theorem C5_error_classifier (a v d : ℚ) (e : String) (hv : v < 0) :
    ((volumeCmd a (some e) (some v)).raised = none ∧
     (fadeCmd (some e) (some v) (some d)).raised = none) ∧
    (strContainsSub "Volume" e = true →
      (volumeCmd a (some e) (some v)).output = [OutLine.err volStepMsg] ∧
      (fadeCmd (some e) (some v) (some d)).output
        = [OutLine.fadeMsg v (some d), OutLine.text e, OutLine.err volStepMsg]) ∧
    (strContainsSub "Volume" e = false →
      (volumeCmd a (some e) (some v)).output = [] ∧
      (fadeCmd (some e) (some v) (some d)).output
        = [OutLine.fadeMsg v (some d), OutLine.text e]) := by
  have ht : pyTruthyFloat (some v) = true := by
    simp [pyTruthyFloat]
    exact ne_of_lt hv
  refine ⟨⟨?_, ?_⟩, fun hc => ⟨?_, ?_⟩, fun hc => ⟨?_, ?_⟩⟩ <;>
    by_cases hk : strContainsSub "Volume" e <;>
      simp_all [volumeCmd, fadeCmd, ht, hv]

/-- Witness for `C5_error_classifier` at a rejection text without `Volume`. -/
theorem C5_error_classifier_witness :
    (fadeCmd (some "boom") (some (-10)) (some 1)).output
      = [OutLine.fadeMsg (-10) (some 1), OutLine.text "boom"] :=
  ((C5_error_classifier (-10) (-10) 1 "boom" (by norm_num)).2.2 (by decide)).2

/-- Claim C6: with playback reported unsupported, the `playback` command
prints the fixed unavailability message and issues no device call beyond the
gate query itself, for every argument; with the menu status reporting
`ready = False`, the `menu` command prints the fixed unavailability message
and issues no call beyond the initial status fetch — in particular no device
write (the status fetch is a read). -/
theorem C6_availability_gates (ps : PlayStatus) (ms0 ms1 : MenuStatus)
    (c : Option String) (h : ms0.ready = false) :
    ((playbackCmd false ps c).calls = [DeviceCall.readPlaybackSupported] ∧
     (playbackCmd false ps c).output = [OutLine.text playbackUnavailMsg]) ∧
    ((menuCmd ms0 ms1 c).calls = [DeviceCall.readMenuStatus] ∧
     (menuCmd ms0 ms1 c).output = [OutLine.text menuUnavailMsg]) ∧
    (∀ dc ∈ (menuCmd ms0 ms1 c).calls, dc.isWrite = false) := by
  refine ⟨⟨?_, ?_⟩, ⟨?_, ?_⟩, ?_⟩ <;> simp [playbackCmd, menuCmd, h, DeviceCall.isWrite]

/-- Witness for `C6_availability_gates` with a not-ready menu status and the
`select` argument. -/
theorem C6_availability_gates_witness :
    (menuCmd ⟨false, 0, "", 0, 0, []⟩ ⟨false, 0, "", 0, 0, []⟩ (some "select")).calls
      = [DeviceCall.readMenuStatus] :=
  (C6_availability_gates ⟨false, "", "", "", ""⟩ ⟨false, 0, "", 0, 0, []⟩
    ⟨false, 0, "", 0, 0, []⟩ (some "select") (by decide)).2.1.1

/-- Claim C7: the `output` command requires its state argument to be
literally `on` or `off` (case-sensitively); any other state renders the
error-styled message and issues no device call; a valid state with a name
that is not a key of the outputs mapping renders the plain not-valid message
and issues no device call; with both valid, `enable_output` is invoked with
`True` for `on` (`False` for `off`) and a confirmation naming the output and
the state is printed. -/
theorem C7_output_validation (outs : List String) (res : Option String)
    (outName st : String) :
    (st ≠ "on" → st ≠ "off" →
      (outputCmd outs res outName st).calls = [] ∧
      (outputCmd outs res outName st).output = [OutLine.err "State must be on or off"]) ∧
    (outName ∉ outs →
      (outputCmd outs res outName "on").calls = [] ∧
      (outputCmd outs res outName "on").output = [OutLine.text outputNotValidMsg] ∧
      (outputCmd outs res outName "off").calls = [] ∧
      (outputCmd outs res outName "off").output = [OutLine.text outputNotValidMsg]) ∧
    (outName ∈ outs →
      (outputCmd outs res outName "on").calls = [DeviceCall.enableOutput outName true] ∧
      (outputCmd outs res outName "on").output
        = [OutLine.text ("Setting receiver output " ++ outName ++ " to on")] ∧
      (outputCmd outs res outName "off").calls = [DeviceCall.enableOutput outName false] ∧
      (outputCmd outs res outName "off").output
        = [OutLine.text ("Setting receiver output " ++ outName ++ " to off")]) := by
  refine ⟨fun h1 h2 => ?_, fun h => ?_, fun h => ?_⟩ <;> simp_all [outputCmd]
  constructor <;> rw [String.append_assoc]
  · rw [(by decide : (" to " ++ "on" : String) = " to on")]
  · rw [(by decide : (" to " ++ "off" : String) = " to off")]

/-- Witness for `C7_output_validation`: Scenario 3, `output zoneB on` with
`zoneB` a known output. -/
theorem C7_output_validation_witness :
    (outputCmd ["zoneB"] none "zoneB" "on").calls
      = [DeviceCall.enableOutput "zoneB" true] :=
  ((C7_output_validation ["zoneB"] none "zoneB" "on").2.2 (by decide)).1

/-- Claim C8: with the menu ready, an unrecognized non-empty token renders
the fixed invalid-menu-command message and returns without a second status
fetch, while each recognized token issues exactly the corresponding
navigation call followed by a fresh status fetch, and the fresh snapshot is
rendered with its entry list sorted (`sortItems` both sorts under the pair
order and permutes the entries). -/
theorem C8_menu_dispatch (ms0 ms1 : MenuStatus) (s : String) (h : ms0.ready = true) :
    (s ≠ "" → s ∉ (["up", "down", "left", "right", "select", "return"] : List String) →
      (menuCmd ms0 ms1 (some s)).calls = [DeviceCall.readMenuStatus] ∧
      (menuCmd ms0 ms1 (some s)).output = [OutLine.text menuNotValidMsg]) ∧
    ((menuCmd ms0 ms1 (some "up")).calls
      = [DeviceCall.readMenuStatus, DeviceCall.menuUp, DeviceCall.readMenuStatus] ∧
     (menuCmd ms0 ms1 (some "down")).calls
      = [DeviceCall.readMenuStatus, DeviceCall.menuDown, DeviceCall.readMenuStatus] ∧
     (menuCmd ms0 ms1 (some "left")).calls
      = [DeviceCall.readMenuStatus, DeviceCall.menuLeft, DeviceCall.readMenuStatus] ∧
     (menuCmd ms0 ms1 (some "right")).calls
      = [DeviceCall.readMenuStatus, DeviceCall.menuRight, DeviceCall.readMenuStatus] ∧
     (menuCmd ms0 ms1 (some "select")).calls
      = [DeviceCall.readMenuStatus, DeviceCall.menuSel, DeviceCall.readMenuStatus] ∧
     (menuCmd ms0 ms1 (some "return")).calls
      = [DeviceCall.readMenuStatus, DeviceCall.menuReturn, DeviceCall.readMenuStatus]) ∧
    ((menuCmd ms0 ms1 (some "select")).output
      = OutLine.text "Sending menu command select to receiver" :: menuRender ms1) ∧
    List.Sorted pairLe (sortItems ms1.current_list) ∧
    (sortItems ms1.current_list).Perm ms1.current_list := by
  have t1 : pyTruthyStr (some "up") = true := by decide
  have t2 : pyTruthyStr (some "down") = true := by decide
  have t3 : pyTruthyStr (some "left") = true := by decide
  have t4 : pyTruthyStr (some "right") = true := by decide
  have t5 : pyTruthyStr (some "select") = true := by decide
  have t6 : pyTruthyStr (some "return") = true := by decide
  refine ⟨fun hs hmem => ?_, ⟨?_, ?_, ?_, ?_, ?_, ?_⟩, ?_, ?_, ?_⟩
  · have ht : pyTruthyStr (some s) = true := by simp [pyTruthyStr, hs]
    constructor <;> simp [menuCmd, h, ht, hmem]
  all_goals
    first
    | exact List.sorted_insertionSort pairLe ms1.current_list
    | exact List.perm_insertionSort pairLe ms1.current_list
    | simp [menuCmd, h, menuNavCalls, t1, t2, t3, t4, t5, t6]

/-- Witness for `C8_menu_dispatch` at a ready status and the unrecognized
token `sideways`. -/
theorem C8_menu_dispatch_witness :
    (menuCmd ⟨true, 1, "Setup", 0, 2, [("1", "A")]⟩
        ⟨true, 1, "Setup", 0, 2, [("1", "A")]⟩ (some "sideways")).output
      = [OutLine.text menuNotValidMsg] :=
  ((C8_menu_dispatch ⟨true, 1, "Setup", 0, 2, [("1", "A")]⟩
      ⟨true, 1, "Setup", 0, 2, [("1", "A")]⟩ "sideways" (by decide)).1
    (by decide) (by decide)).2

/-- Claim C9 (implicit): `power` and `mute` lowercase their argument before
interpreting it, so `ON`, `On` and `OFF` are accepted as on/off tokens (and
applied to the device), while `output` compares its state argument
case-sensitively, rejecting `ON` and `OFF` with the error-styled message and
no device call. -/
theorem C9_case_sensitivity :
    (powerCmd false none (some "ON")).calls = [DeviceCall.setPower true] ∧
    (powerCmd false none (some "On")).calls = [DeviceCall.setPower true] ∧
    (powerCmd false none (some "OFF")).calls = [DeviceCall.setPower false] ∧
    (powerCmd false none (some "ON")).output = [OutLine.text "Turned the receiver on"] ∧
    (muteCmd false none (some "ON")).calls
      = [DeviceCall.readBasicStatus, DeviceCall.setMute true] ∧
    (muteCmd false none (some "OFF")).calls
      = [DeviceCall.readBasicStatus, DeviceCall.setMute false] ∧
    (outputCmd ["zoneB"] none "zoneB" "ON").calls = [] ∧
    (outputCmd ["zoneB"] none "zoneB" "ON").output
      = [OutLine.err "State must be on or off"] ∧
    (outputCmd ["zoneB"] none "zoneB" "OFF").calls = [] ∧
    (outputCmd ["zoneB"] none "zoneB" "OFF").output
      = [OutLine.err "State must be on or off"] := by
  refine ⟨?_, ?_, ?_, ?_, ?_, ?_, ?_, ?_, ?_, ?_⟩ <;> decide

/-- Claim C10 (implicit): the points argument of `up` and `down` is not
validated for positivity: for every integer `n`, zero and negatives
included, `up` sends `v + n·0.5` and `down` sends `v - n·0.5`, so a negative
count inverts the direction of the adjustment. -/
theorem C10_points_unvalidated (v : ℚ) (n : ℤ) (res : Option String) :
    sentVolumes (upCmd v res (some n)) = [v + (n : ℚ) * (1 / 2)] ∧
    sentVolumes (downCmd v res (some n)) = [v - (n : ℚ) * (1 / 2)] ∧
    sentVolumes (upCmd v res (some (-n))) = [v - (n : ℚ) * (1 / 2)] ∧
    sentVolumes (downCmd v res (some (-n))) = [v + (n : ℚ) * (1 / 2)] ∧
    sentVolumes (upCmd v res (some 0)) = [v] := by
  cases res <;> simp [upCmd, downCmd, adjust_volume, VolOp.apply, sentVolumes] <;> ring

end Rxvc
